import Mathlib

/-!
Verification of the Model Lifecycle & Inference Routing Engine of the
VisualCheck repository (`modules/ai_engine.py` together with the training
guard and scheduler in `app.py`).

The Python code is shallowly embedded: the on-disk `models/` tree is a
small inductive filesystem model, the `AIEngine` object state is a
structure, and each method of interest (`_load_inference_model`, `train`,
`predict`, `_predict_pytorch`, `_get_current_version`,
`rollback_to_version`) is a pure Lean function over those models.  The
external collaborators (anomalib's trainer, the OpenVINO exporter, the
loaded model's forward pass, image decoding) are passed in as explicit
outcome parameters, mirroring the spec's "external collaborator" boundary.
The training concurrency guard of `app.py` (`training_active` +
`training_lock`) is embedded as a small-step interleaving machine further
below.
-/

/-! ## Filesystem model -/

/-- A `*.ckpt` checkpoint file found by `Path.rglob("*.ckpt")`: its
modification time (`os.path.getmtime`) and an identity for its trained
contents (which training run produced it). -/
structure Ckpt where
  mtime : Nat
  content : Nat
deriving DecidableEq, Repr

/-- A directory entry as seen by `Path.iterdir()` on a model directory:
its name, whether it is a directory (`is_dir()`), and the checkpoint files
found recursively below it (`rglob("*.ckpt")`; empty for plain files). -/
structure DirEntry where
  name : String
  isDir : Bool
  ckpts : List Ckpt
deriving DecidableEq, Repr

/-- The state of one `models/<DisplayName>/` tree.
`cableEntries` are the entries of `models/<DisplayName>/cable/` (the
anomalib category directory that holds `v<N>` version directories and the
`latest` rollback alias); `rootEntries` are the remaining entries directly
under `models/<DisplayName>/`. -/
structure ModelDir where
  present : Bool
  cablePresent : Bool
  cableEntries : List DirEntry
  rootEntries : List DirEntry
deriving DecidableEq, Repr

/-- A directory that does not exist on disk. -/
def ModelDir.absent : ModelDir := ⟨false, false, [], []⟩

/-- The parts of the disk the engine touches: the shared
`models/openvino/` export location (`OPENVINO_DIR = MODEL_DIR / "openvino"`,
a single path not keyed by model type), the per-display-name model trees,
the `data/train_temp` staging workspace flag, and the `data/ok` corpus
(all files matched by `rglob("*.jpg") + rglob("*.png")`). -/
structure FS where
  ovXml : Bool
  ovMeta : Bool
  ovContent : Nat
  dirs : List (String × ModelDir)
  trainTemp : Bool
  okImages : List String
deriving DecidableEq, Repr

/-- Look up `models/<name>/`; a name with no record is an absent directory. -/
def FS.modelDir (fs : FS) (name : String) : ModelDir :=
  (fs.dirs.lookup name).getD ModelDir.absent

/-- Replace the record for `models/<name>/` (used by operations that write
under an existing model directory). -/
def FS.setModelDir (fs : FS) (name : String) (md : ModelDir) : FS :=
  { fs with dirs := fs.dirs.map (fun p => if p.1 = name then (name, md) else p) }

/-- Python's `str.capitalize()`: first character uppercased, the rest
lowercased (`model_type.capitalize()` selects the display directory,
e.g. `"patchcore"` to `"Patchcore"`). -/
def pyCapitalize (s : String) : String :=
  match s.data with
  | [] => ""
  | c :: cs => String.mk (c.toUpper :: cs.map Char.toLower)

/-- Python's `str.startswith(p)`, computed on the character lists. -/
def pyStartsWith (s p : String) : Bool :=
  p.data.isPrefixOf s.data

/-- Python's `s[1:]`, computed on the character list. -/
def pyDrop1 (s : String) : String :=
  String.mk (s.data.drop 1)

/-- Python's `str.isdigit()` restricted to ASCII decimal digits: true for
a nonempty all-digit string. -/
def pyIsDigit (s : String) : Bool :=
  !s.data.isEmpty && s.data.all Char.isDigit

/-- Python's `int(...)` on an all-digit decimal string. -/
def parseDec (s : String) : Nat :=
  s.data.foldl (fun n c => n * 10 + (c.toNat - 48)) 0

/-- The model-type keys accepted by `AIEngine._get_model_class`
(`SUPPORTED_MODELS`); any other key makes it raise `ValueError`. -/
def isSupportedModelType (mt : String) : Bool :=
  mt == "patchcore" || mt == "padim" || mt == "efficientad"

/-! ## Version Registry: `_get_current_version` -/

/-- The entries `_get_current_version` scans: those of
`models/<Type>/cable/` when that subdirectory exists, else those of
`models/<Type>/` itself. -/
def scannedEntries (md : ModelDir) : List DirEntry :=
  if md.cablePresent then md.cableEntries else md.rootEntries

/-- The list comprehension
`[int(v[1:]) for v in versions if v[1:].isdigit()]` applied to the
directory entries whose name starts with `v`. -/
def numsOf (md : ModelDir) : List Nat :=
  ((((scannedEntries md).filter (fun d => d.isDir && pyStartsWith d.name "v")).map
      (fun d => pyDrop1 d.name)).filter pyIsDigit).map parseDec

/-- Model of `AIEngine._get_current_version`: scan `models/<Type>/cable/` (falling
back to `models/<Type>/` if no `cable/` subdirectory exists) for directory
entries whose name starts with `v`; parse the digit suffixes with
`int(...)` when `isdigit()` holds and return `v<max>`, with `v0` as the
sentinel when the directory, the version entries, or the numeric suffixes
are missing. -/
def getCurrentVersion (md : ModelDir) : String :=
  if !md.present then "v0"
  else if ((scannedEntries md).filter (fun d => d.isDir && pyStartsWith d.name "v")).isEmpty
  then "v0"
  else
    match numsOf md with
    | [] => "v0"
    | n :: ns => "v" ++ toString (ns.foldl max n)

/-! ## Inference model loading: `_load_inference_model` -/

/-- What `self.model` can hold: a checkpoint loaded via
`load_from_checkpoint`, or the in-memory model instance created by
`train` (`ModelClass(...)`) which `engine.fit` trains in place. -/
inductive LoadedModel
| fromCheckpoint (c : Ckpt)
| inMemory (modelType : String) (trained : Bool)
deriving DecidableEq, Repr

/-- The mutable fields of the `AIEngine` object: `self.model`,
`self.inferencer` (holding the identity of the OpenVINO artifact it was
built from), and `self.active_model_type`. -/
structure EngineSt where
  model : Option LoadedModel
  inferencer : Option Nat
  activeModelType : String
deriving DecidableEq, Repr

/-- Engine state at process start, before `_load_inference_model` runs
(`self.model = None`, `self.inferencer = None`). -/
def engineInit : EngineSt := ⟨none, none, "patchcore"⟩

/-- All checkpoints `Path(model_dir).rglob("*.ckpt")` finds under
`models/<DisplayName>/` (the `cable/` subtree included). -/
def ModelDir.allCkpts (md : ModelDir) : List Ckpt :=
  if md.present then
    (md.rootEntries.map DirEntry.ckpts).flatten ++
      (if md.cablePresent then (md.cableEntries.map DirEntry.ckpts).flatten else [])
  else []

/-- The comparison step of Python's `max(..., key=os.path.getmtime)`:
replace the current best only on a strictly larger mtime. -/
def betterCkpt (best x : Ckpt) : Ckpt :=
  if best.mtime < x.mtime then x else best

/-- Python's `max(ckpts, key=os.path.getmtime)`: left-to-right scan with
`betterCkpt`. -/
def maxByMtime : List Ckpt → Option Ckpt
  | [] => none
  | c :: cs => some (cs.foldl betterCkpt c)

/-- Model of `AIEngine._load_inference_model`: record the active model type, then
(1) if `models/openvino/model.xml` and `models/openvino/metadata.json`
both exist, build an `OpenVINOInferencer` from them and clear `self.model`;
(2) else if any `*.ckpt` exists under `models/<DisplayName>/`, load the one
with the greatest mtime via the model class's checkpoint loader and clear
`self.inferencer` (an unknown model type raises inside the surrounding
`try`, which swallows the error and leaves the backend fields unchanged);
(3) else leave both backend fields unchanged.  Successful artifact loading
itself is modeled as succeeding. -/
def loadInferenceModel (fs : FS) (modelType : String) (st : EngineSt) : EngineSt :=
  let st := { st with activeModelType := modelType }
  if fs.ovXml && fs.ovMeta then
    { st with inferencer := some fs.ovContent, model := none }
  else
    match maxByMtime (fs.modelDir (pyCapitalize modelType)).allCkpts with
    | some c =>
        if isSupportedModelType modelType then
          { st with model := some (LoadedModel.fromCheckpoint c), inferencer := none }
        else st
    | none => st

/-! ## Inference: `predict`, `_predict_openvino`, `_predict_pytorch` -/

/-- An element of a tuple/list model output: a `torch.Tensor` (abstracted
to the scalar that `.item()` / `[0].item()` reads off it) or some
non-tensor value. -/
inductive SeqElem
| tensor (scalar : ℚ)
| nonTensor (tag : Nat)
deriving DecidableEq, Repr

/-- The raw output of `self.model(input_tensor)` in `_predict_pytorch`:
an object with a `pred_score` attribute (anomalib's `InferenceBatch`,
whose `anomaly_map` attribute is `some` exactly when it holds a tensor),
a plain tuple/list, or anything else. -/
inductive ModelOutput
| withPredScore (predScore : ℚ) (anomalyMap : Option ℚ)
| seq (elems : List SeqElem)
| other (tag : Nat)
deriving DecidableEq, Repr

/-- The score extraction of `_predict_pytorch`: `score` starts at `0.0`;
an output with a `pred_score` attribute overrides it; otherwise a
tuple/list whose first element is a tensor overrides it; in every other
case the `0.0` initialization is returned unchanged. -/
def extractScore : ModelOutput → ℚ
  | ModelOutput.withPredScore s _ => s
  | ModelOutput.seq (SeqElem.tensor t :: _) => t
  | _ => 0

/-- The anomaly-map extraction of `_predict_pytorch`: the `anomaly_map`
attribute when present and a tensor, else element 2 of a tuple/list of
length at least 3 when that element is a tensor, else nothing. -/
def extractAnomalyMap : ModelOutput → Option ℚ
  | ModelOutput.withPredScore _ m => m
  | ModelOutput.seq es =>
      match es[2]? with
      | some (SeqElem.tensor t) => some t
      | _ => none
  | ModelOutput.other _ => none

/-- Round-half-to-even to an integer, the rounding Python's `round` uses. -/
def roundHalfEven (q : ℚ) : ℤ :=
  let f := ⌊q⌋
  let r := q - f
  if r < 1/2 then f
  else if 1/2 < r then f + 1
  else if 2 ∣ f then f else f + 1

/-- Python's `round(x, 4)` (idealized to exact decimal arithmetic). -/
def round4 (q : ℚ) : ℚ := (roundHalfEven (q * 10000) : ℚ) / 10000

/-- A successful predict response: the `score`, `label`, `method` and
optional `heatmap` keys (the heatmap abstracted to the anomaly-map scalar
it was rendered from; base64/JPEG encoding is not modeled and
`_generate_heatmap` is modeled as succeeding). -/
structure PredOk where
  score : ℚ
  label : String
  method : String
  heatmap : Option ℚ
deriving DecidableEq, Repr

/-- A predict response: an `{"error": msg}` dictionary or a success
dictionary. -/
inductive PredictResult
| err (msg : String)
| ok (r : PredOk)
deriving DecidableEq, Repr

/-- Model of `AIEngine._predict_openvino`: the inferencer's `pred_score` for the
image is an oracle input; `label` is `ng` above the fixed `0.5` threshold. -/
def predictOpenvino (ovScore : ℚ) : PredictResult :=
  PredictResult.ok
    { score := round4 ovScore
      label := if ovScore > 1/2 then "ng" else "ok"
      method := "openvino"
      heatmap := none }

/-- Model of `AIEngine._predict_pytorch`: fail when `cv2.imread` returned `None`
(the decoded image is an oracle input), otherwise extract the score and
anomaly map from the model output as the source does and answer with the
fixed-threshold label. -/
def predictPytorch (img : Option Nat) (out : ModelOutput) : PredictResult :=
  match img with
  | none => PredictResult.err "Failed to load image"
  | some _ =>
      let score := extractScore out
      PredictResult.ok
        { score := round4 score
          label := if score > 1/2 then "ng" else "ok"
          method := "pytorch"
          heatmap := extractAnomalyMap out }

/-- Model of `AIEngine.predict`: dispatch on `self.inferencer` first, then
`self.model`, else report that no model is loaded. -/
def predict (st : EngineSt) (ovScore : ℚ) (img : Option Nat) (out : ModelOutput) :
    PredictResult :=
  match st.inferencer with
  | some _ => predictOpenvino ovScore
  | none =>
      match st.model with
      | some _ => predictPytorch img out
      | none => PredictResult.err "Model not loaded. Please train first."

/-! ## Version rollback: `rollback_to_version` -/

/-- The result of `rollback_to_version`: a `{"success": False, "error": ...}`
dictionary, a `{"success": True, ...}` dictionary, or an uncaught Python
exception escaping the method. -/
inductive RbResult
| err (msg : String)
| ok (msg : String) (version : String)
| raised (exnName : String)
deriving DecidableEq, Repr

/-- The entry `models/<Capitalized mt>/cable/<version>` that
`rollback_to_version` probes with `version_dir.exists()`: present only
when the model directory and its `cable/` subdirectory exist and contain
an entry of that name. -/
def findVersionEntry (fs : FS) (modelType : String) (version : String) : Option DirEntry :=
  let md := fs.modelDir (pyCapitalize modelType)
  if md.present && md.cablePresent then
    md.cableEntries.find? (fun e => e.name == version)
  else none

/-- Model of `AIEngine.rollback_to_version`: fail when the version directory does
not exist or holds no `*.ckpt`; otherwise `shutil.rmtree` the `latest`
alias and `shutil.copytree` the version directory onto it — `copytree`
defaults to `copy2`, which preserves file modification times, so the
copied checkpoints keep their original mtimes — and then reload the
inference model.  Rolling back to `latest` itself deletes the source
before the copy, so `copytree`'s scan of the source raises
`FileNotFoundError`. -/
def rollbackToVersion (fs : FS) (st : EngineSt) (version : String) (modelType : String) :
    RbResult × FS × EngineSt :=
  let dname := pyCapitalize modelType
  let md := fs.modelDir dname
  match findVersionEntry fs modelType version with
  | none => (RbResult.err ("Version " ++ version ++ " not found"), fs, st)
  | some e =>
      if e.ckpts.isEmpty then
        (RbResult.err ("No checkpoint found in " ++ version), fs, st)
      else
        let removed := md.cableEntries.filter (fun x => !(x.name == "latest"))
        if version == "latest" then
          (RbResult.raised "FileNotFoundError",
            fs.setModelDir dname { md with cableEntries := removed }, st)
        else
          let md' := { md with cableEntries := removed ++ [{ e with name := "latest" }] }
          let fs' := fs.setModelDir dname md'
          (RbResult.ok ("Rolled back to " ++ version) version, fs',
            loadInferenceModel fs' modelType st)

/-! ## Training: `train` -/

/-- A Python exception escaping `train`: the `ValueError` raised by
`_get_model_class` for an unknown model type, or the exception raised by
`engine.fit` and re-raised by the `except` clause. -/
inductive PyExn
| valueError (msg : String)
| fitError (cause : Nat)
deriving DecidableEq, Repr

/-- The outcome of `train` as seen by its caller: the
`{"success": False, "error": ...}` dictionary, the success dictionary
with its message, model type and version, or a propagated exception. -/
inductive TrainResult
| errDict (msg : String)
| okDict (msg : String) (modelType : String) (version : String)
| exn (e : PyExn)
deriving DecidableEq, Repr

/-- Whether the caller of `train` got a raised exception rather than a
returned dictionary. -/
def TrainResult.isExn : TrainResult → Bool
  | TrainResult.exn _ => true
  | _ => false

/-- The external trainer's behavior on this run (`engine.fit`): either it
completes, leaving `models/<DisplayName>/` in some state `written`
(anomalib writes its checkpoints and logs there), or it raises. -/
inductive FitOutcome
| ok (written : ModelDir)
| raises (cause : Nat)
deriving DecidableEq, Repr

/-- The OpenVINO exporter's behavior on this run (`engine.export`):
either it writes the shared optimized bundle (identified by `artifact`),
or it raises — which `train` logs and swallows. -/
inductive ExportOutcome
| ok (artifact : Nat)
| raises (cause : Nat)
deriving DecidableEq, Repr

/-- Model of `AIEngine.train`:
1. count `data/ok` images; below `expected_normal_count` return the
   insufficient-samples error dictionary with both counts;
2. recreate the `data/train_temp` staging workspace and copy the corpus
   into it;
3. `_get_model_class` — an unknown model type raises `ValueError` here,
   after staging, with no cleanup on that path;
4. create the model instance (`self.model = ModelClass(...)`) and run
   `engine.fit`; on a fit exception remove the workspace and re-raise;
5. attempt `engine.export` (failure swallowed), remove the workspace,
   read `_get_current_version`, reload the inference model, and return
   the success dictionary. -/
def train (fs : FS) (st : EngineSt) (modelType : String) (expectedNormalCount : Nat)
    (fit : FitOutcome) (exportRes : ExportOutcome) : TrainResult × FS × EngineSt :=
  let found := fs.okImages.length
  if found < expectedNormalCount then
    (TrainResult.errDict
        ("Need at least " ++ toString expectedNormalCount ++ " OK images (found "
          ++ toString found ++ ")"),
      fs, st)
  else
    let fs := { fs with trainTemp := true }
    if !isSupportedModelType modelType then
      (TrainResult.exn (PyExn.valueError ("Unknown model type: " ++ modelType)), fs, st)
    else
      let st := { st with model := some (LoadedModel.inMemory modelType false) }
      match fit with
      | FitOutcome.raises cause =>
          let fs := { fs with trainTemp := false }
          (TrainResult.exn (PyExn.fitError cause), fs, st)
      | FitOutcome.ok written =>
          let st := { st with model := some (LoadedModel.inMemory modelType true) }
          let dname := pyCapitalize modelType
          let fs := fs.setModelDir dname written
          let fs :=
            match exportRes with
            | ExportOutcome.ok artifact =>
                { fs with ovXml := true, ovMeta := true, ovContent := artifact }
            | ExportOutcome.raises _ => fs
          let fs := { fs with trainTemp := false }
          let version := getCurrentVersion (fs.modelDir dname)
          let st := loadInferenceModel fs modelType st
          (TrainResult.okDict (modelType ++ " training completed") modelType version, fs, st)

/-! ## Concurrency Guard (`app.py`): `training_active` + `training_lock`

Two kinds of training callers share the process-wide flag
`training_active`, protected by the mutex `training_lock`:

* `train_endpoint` (`/api/train`): under the lock it checks the flag —
  returning the 409 "Training already in progress" response if set —
  otherwise sets it and releases; the spawned background thread then runs
  `ai_engine.train` with the lock free and finally clears the flag under
  the lock.  Handler and worker are modeled as one sequential thread,
  since the handler performs no further guarded action after the spawn.
* `scheduled_retraining` (a tick that found new OK images): it holds the
  lock for its whole body — check the flag (skipping if set), set it, run
  `ai_engine.train`, and clear the flag in a `finally`, releasing the
  lock only afterwards.

Lock-protected regions that contain no blocking call are collapsed into
single atomic steps; the scheduler's fit runs with the lock held, so its
lock ownership is explicit state.  A thread scheduled while blocked on
the lock simply does not advance. -/

/-- Control state of an endpoint `train` caller: before its guard
check-and-set, mid-fit, after the fit (about to clear the flag), or done —
`done true` meaning it returned the immediate 409 contention response. -/
inductive EpState
| ready
| fitting
| afterFit
| done (busy : Bool)
deriving DecidableEq, Repr

/-- Control state of a scheduler tick that found new OK images: before
acquiring `training_lock`, holding it about to test `training_active`,
mid-fit (lock still held), or done — `done b` records whether it fitted. -/
inductive SchState
| ready
| checking
| fitting
| done (fitted : Bool)
deriving DecidableEq, Repr

/-- A configuration of the guard system: whether the scheduler holds
`training_lock` across steps, the `training_active` flag, the control
state of two endpoint callers and the scheduler tick, and fit counters. -/
structure Conf where
  schLock : Bool
  active : Bool
  ep0 : EpState
  ep1 : EpState
  sch : SchState
  ep0Fits : Nat
  ep1Fits : Nat
  schFits : Nat
deriving DecidableEq, Repr

/-- The initial configuration: lock free, flag clear, all callers ready. -/
def confInit : Conf := ⟨false, false, EpState.ready, EpState.ready, SchState.ready, 0, 0, 0⟩

/-- One step of endpoint caller 0. -/
def stepE0 (c : Conf) : Conf :=
  match c.ep0 with
  | EpState.ready =>
      if c.schLock then c
      else if c.active then { c with ep0 := EpState.done true }
      else { c with active := true, ep0 := EpState.fitting }
  | EpState.fitting => { c with ep0 := EpState.afterFit, ep0Fits := c.ep0Fits + 1 }
  | EpState.afterFit =>
      if c.schLock then c
      else { c with active := false, ep0 := EpState.done false }
  | EpState.done _ => c

/-- One step of endpoint caller 1. -/
def stepE1 (c : Conf) : Conf :=
  match c.ep1 with
  | EpState.ready =>
      if c.schLock then c
      else if c.active then { c with ep1 := EpState.done true }
      else { c with active := true, ep1 := EpState.fitting }
  | EpState.fitting => { c with ep1 := EpState.afterFit, ep1Fits := c.ep1Fits + 1 }
  | EpState.afterFit =>
      if c.schLock then c
      else { c with active := false, ep1 := EpState.done false }
  | EpState.done _ => c

/-- One step of the scheduler tick. -/
def stepSch (c : Conf) : Conf :=
  match c.sch with
  | SchState.ready =>
      if c.schLock then c else { c with schLock := true, sch := SchState.checking }
  | SchState.checking =>
      if c.active then { c with schLock := false, sch := SchState.done false }
      else { c with active := true, sch := SchState.fitting }
  | SchState.fitting =>
      { c with schFits := c.schFits + 1, active := false, schLock := false,
               sch := SchState.done true }
  | SchState.done _ => c

/-- Thread identifiers for the interleaving schedule. -/
inductive Tid
| e0
| e1
| s
deriving DecidableEq, Repr

/-- Step the thread a schedule entry names. -/
def stepT (c : Conf) : Tid → Conf
  | Tid.e0 => stepE0 c
  | Tid.e1 => stepE1 c
  | Tid.s => stepSch c

/-- The list of configurations reached while executing a schedule. -/
def runHist (c : Conf) : List Tid → List Conf
  | [] => [c]
  | w :: ws => c :: runHist (stepT c w) ws

/-- How many of a caller's "owning" control states implies the flag:
an endpoint caller owns the flag while fitting or about to clear it. -/
def epOwns : EpState → Nat
  | EpState.fitting => 1
  | EpState.afterFit => 1
  | _ => 0

/-- The scheduler owns the flag exactly while fitting. -/
def schOwns : SchState → Nat
  | SchState.fitting => 1
  | _ => 0

/-- The guard invariant: the number of callers owning the flag equals the
flag itself. -/
def GuardInv (c : Conf) : Prop :=
  epOwns c.ep0 + epOwns c.ep1 + schOwns c.sch = (if c.active then 1 else 0)

/-! ## Concrete instances used by witnesses and counterexamples -/

/-- The number `n` is parsed from a well-formed version entry — a directory whose
name is `v` followed by decimal digits — among the entries
`_get_current_version` scans. -/
def IsVerNum (md : ModelDir) (n : Nat) : Prop :=
  ∃ e ∈ scannedEntries md, e.isDir = true ∧ pyStartsWith e.name "v" = true ∧
    pyIsDigit (pyDrop1 e.name) = true ∧ parseDec (pyDrop1 e.name) = n

instance (md : ModelDir) (n : Nat) : Decidable (IsVerNum md n) := by
  unfold IsVerNum
  infer_instance

/-- The schedule of the C1 counterexample run: the scheduler tick
acquires the lock and starts fitting, endpoint caller 0 is scheduled
while that fit is in progress, then the tick finishes and caller 0 runs
to completion. -/
def c1Schedule : List Tid := [Tid.s, Tid.s, Tid.e0, Tid.s, Tid.e0, Tid.e0, Tid.e0]

/-- The configurations reached along `c1Schedule`. -/
def c1Trace : List Conf := runHist confInit c1Schedule

/-- A corpus of three OK images and an otherwise empty disk. -/
def fsW4 : FS := ⟨false, false, 0, [], false, ["a.jpg", "b.jpg", "c.jpg"]⟩

/-- A corpus of one OK image, an existing empty `models/Patchcore/cable/`
tree and no leftover staging workspace. -/
def fsW3 : FS :=
  ⟨false, false, 0, [("Patchcore", ⟨true, true, [], []⟩)], false, ["a.jpg"]⟩

/-- A corpus of ten OK images and an otherwise empty disk. -/
def fsTen : FS :=
  ⟨false, false, 0, [], false,
    ["1.jpg", "2.jpg", "3.jpg", "4.jpg", "5.jpg", "6.jpg", "7.jpg", "8.jpg",
      "9.jpg", "10.jpg"]⟩

/-- A complete `models/openvino/` bundle (artifact identity 9) and no
model directories. -/
def fsW5 : FS := ⟨true, true, 9, [], false, []⟩

/-- A `models/Patchcore/cable/v3/` version directory that exists but
holds no checkpoint. -/
def fsW8 : FS :=
  ⟨false, false, 0, [("Patchcore", ⟨true, true, [⟨"v3", true, []⟩], []⟩)], false, []⟩

/-- Two committed patchcore versions: `v1` trained first (its checkpoint
has mtime 100 and contents 1) and `v2` trained later (mtime 200,
contents 2); no optimized export is present. -/
def mdC2 : ModelDir :=
  ⟨true, true, [⟨"v1", true, [⟨100, 1⟩]⟩, ⟨"v2", true, [⟨200, 2⟩]⟩], []⟩

/-- The disk for the rollback counterexample: `mdC2` under
`models/Patchcore/`. -/
def fsC2 : FS := ⟨false, false, 0, [("Patchcore", mdC2)], false, []⟩

/-- A model directory whose `cable/` holds well-formed version entries
`v2` and `v10` plus malformed entries (`vault` and a plain file `v9`). -/
def mdW9 : ModelDir :=
  ⟨true, true,
    [⟨"v2", true, [⟨1, 1⟩]⟩, ⟨"vault", true, []⟩, ⟨"v9", false, []⟩,
      ⟨"v10", true, [⟨2, 2⟩]⟩], []⟩

/-! ## Theorems -/

theorem guardInv_step (c : Conf) (t : Tid) (h : GuardInv c) : GuardInv (stepT c t) := by
  obtain ⟨l, a, e0, e1, s, m0, m1, n⟩ := c
  cases t <;> cases e0 <;> cases e1 <;> cases s <;> cases a <;> cases l <;>
    simp_all [GuardInv, stepT, stepE0, stepE1, stepSch, epOwns, schOwns]

theorem guardInv_runHist (w : List Tid) (c0 : Conf) (h0 : GuardInv c0) :
    ∀ c ∈ runHist c0 w, GuardInv c := by
  induction w generalizing c0 with
  | nil =>
      intro c hc
      simp only [runHist, List.mem_singleton] at hc
      exact hc ▸ h0
  | cons t ts ih =>
      intro c hc
      simp only [runHist, List.mem_cons] at hc
      rcases hc with rfl | hc
      · exact h0
      · exact ih (stepT c0 t) (guardInv_step c0 t h0) c hc

theorem foldlBetterCkpt_mem (cs : List Ckpt) (c : Ckpt) :
    cs.foldl betterCkpt c ∈ c :: cs := by
  induction cs generalizing c with
  | nil => simp [List.foldl]
  | cons a as ih =>
      simp only [List.foldl]
      rcases List.mem_cons.mp (ih (betterCkpt c a)) with h | h
      · rw [h]
        unfold betterCkpt
        split
        · exact List.mem_cons_of_mem _ (List.mem_cons_self _ _)
        · exact List.mem_cons_self _ _
      · exact List.mem_cons_of_mem _ (List.mem_cons_of_mem _ h)

theorem foldlBetterCkpt_le (cs : List Ckpt) (c : Ckpt) :
    c.mtime ≤ (cs.foldl betterCkpt c).mtime ∧
      ∀ x ∈ cs, x.mtime ≤ (cs.foldl betterCkpt c).mtime := by
  induction cs generalizing c with
  | nil => simp [List.foldl]
  | cons a as ih =>
      simp only [List.foldl]
      obtain ⟨h1, h2⟩ := ih (betterCkpt c a)
      have hc : c.mtime ≤ (betterCkpt c a).mtime := by
        unfold betterCkpt; split
        · omega
        · exact le_refl _
      have ha : a.mtime ≤ (betterCkpt c a).mtime := by
        unfold betterCkpt; split
        · exact le_refl _
        · omega
      refine ⟨le_trans hc h1, ?_⟩
      intro x hx
      rcases List.mem_cons.mp hx with rfl | hx
      · exact le_trans ha h1
      · exact h2 x hx

theorem maxByMtime_mem (l : List Ckpt) (c : Ckpt) (h : maxByMtime l = some c) : c ∈ l := by
  cases l with
  | nil => simp [maxByMtime] at h
  | cons a as =>
      simp only [maxByMtime, Option.some.injEq] at h
      exact h ▸ foldlBetterCkpt_mem as a

theorem maxByMtime_isMax (l : List Ckpt) (c : Ckpt) (h : maxByMtime l = some c) :
    ∀ x ∈ l, x.mtime ≤ c.mtime := by
  cases l with
  | nil => simp [maxByMtime] at h
  | cons a as =>
      simp only [maxByMtime, Option.some.injEq] at h
      intro x hx
      obtain ⟨h1, h2⟩ := foldlBetterCkpt_le as a
      rcases List.mem_cons.mp hx with rfl | hx
      · exact h ▸ h1
      · exact h ▸ h2 x hx

theorem foldlNatMax_mem (ns : List Nat) (n : Nat) : ns.foldl max n ∈ n :: ns := by
  induction ns generalizing n with
  | nil => simp [List.foldl]
  | cons a as ih =>
      simp only [List.foldl]
      rcases List.mem_cons.mp (ih (max n a)) with h | h
      · rw [h]
        rcases Nat.le_total n a with hna | han
        · rw [Nat.max_eq_right hna]
          exact List.mem_cons_of_mem _ (List.mem_cons_self _ _)
        · rw [Nat.max_eq_left han]
          exact List.mem_cons_self _ _
      · exact List.mem_cons_of_mem _ (List.mem_cons_of_mem _ h)

theorem foldlNatMax_le (ns : List Nat) (n : Nat) :
    n ≤ ns.foldl max n ∧ ∀ x ∈ ns, x ≤ ns.foldl max n := by
  induction ns generalizing n with
  | nil => simp [List.foldl]
  | cons a as ih =>
      simp only [List.foldl]
      obtain ⟨h1, h2⟩ := ih (max n a)
      refine ⟨le_trans (Nat.le_max_left n a) h1, ?_⟩
      intro x hx
      rcases List.mem_cons.mp hx with rfl | hx
      · exact le_trans (Nat.le_max_right n x) h1
      · exact h2 x hx

/-- Claim C1 (amended): in every interleaving of two endpoint `train`
calls with a scheduler tick, at most one caller is mid-fit at any
instant, and an endpoint call whose guarded check runs while the training
flag is set and the lock is free fails immediately with the 409
`TrainingInProgress` response, performing no fit and no other side
effect.  (As stated the claim is false: a call issued while the
scheduler-initiated training holds `training_lock` blocks instead of
failing, and then performs a second fit — see the counterexample.) -/
theorem c1_at_most_one_fit_in_progress (w : List Tid) (c : Conf)
    (hc : c ∈ runHist confInit w) :
    (¬ (c.ep0 = EpState.fitting ∧ c.ep1 = EpState.fitting)) ∧
    (¬ (c.ep0 = EpState.fitting ∧ c.sch = SchState.fitting)) ∧
    (¬ (c.ep1 = EpState.fitting ∧ c.sch = SchState.fitting)) ∧
    (c.ep1 = EpState.ready → c.active = true → c.schLock = false →
      stepT c Tid.e1 = { c with ep1 := EpState.done true }) := by
  have hInv : GuardInv c :=
    guardInv_runHist w confInit (by simp [GuardInv, confInit, epOwns, schOwns]) c hc
  unfold GuardInv at hInv
  refine ⟨?_, ?_, ?_, ?_⟩
  · rintro ⟨h0, h1⟩
    rw [h0, h1] at hInv
    simp only [epOwns] at hInv
    rcases Bool.eq_false_or_eq_true c.active with hA | hA <;> simp [hA] at hInv
    all_goals omega
  · rintro ⟨h0, h1⟩
    rw [h0, h1] at hInv
    simp only [epOwns, schOwns] at hInv
    rcases Bool.eq_false_or_eq_true c.active with hA | hA <;>
      rw [hA] at hInv <;> simp at hInv
  · rintro ⟨h0, h1⟩
    rw [h0, h1] at hInv
    simp only [epOwns, schOwns] at hInv
    rcases Bool.eq_false_or_eq_true c.active with hA | hA <;>
      rw [hA] at hInv <;> simp at hInv
  · intro h1 h2 h3
    simp [stepT, stepE1, h1, h2, h3]

theorem c1_at_most_one_fit_in_progress_witness :
    confInit ∈ runHist confInit [] ∧
      ¬ (confInit.ep0 = EpState.fitting ∧ confInit.sch = SchState.fitting) :=
  ⟨by decide, (c1_at_most_one_fit_in_progress [] confInit (by decide)).2.1⟩

/-- Claim C1 counterexample: running `c1Schedule`, after two scheduler
steps the tick is mid-fit holding both the lock and the flag
(configuration index 2); endpoint caller 0 is then scheduled while that
training is running but merely blocks — index 3 equals index 2, so it
neither fails with the 409 response nor does anything else; after the
tick finishes, caller 0 acquires the guard and fits, ending with both
callers having performed a fit and caller 0 reporting success
(`done false`), never `TrainingInProgress`. -/
theorem c1_blocked_caller_refits_counterexample :
    c1Trace.getD 2 confInit
        = ⟨true, true, EpState.ready, EpState.ready, SchState.fitting, 0, 0, 0⟩ ∧
    c1Trace.getD 3 confInit = c1Trace.getD 2 confInit ∧
    c1Trace.getD 7 confInit
        = ⟨false, false, EpState.done false, EpState.ready, SchState.done true, 1, 0, 1⟩ := by
  decide

/-- Claim C4: a `train` call on a corpus smaller than the configured
minimum returns the `InsufficientSamples` error dictionary whose message
carries both the required and the found counts, and leaves the disk —
in particular every version directory of the registry — and the engine
state completely unchanged, whatever the trainer and exporter would have
done. -/
theorem c4_insufficient_samples_no_action (fs : FS) (st : EngineSt) (modelType : String)
    (minCount : Nat) (fit : FitOutcome) (exportRes : ExportOutcome)
    (h : fs.okImages.length < minCount) :
    train fs st modelType minCount fit exportRes =
      (TrainResult.errDict ("Need at least " ++ toString minCount ++ " OK images (found "
          ++ toString fs.okImages.length ++ ")"), fs, st) := by
  simp [train, h]

theorem c4_insufficient_samples_no_action_witness :
    train fsW4 engineInit "patchcore" 10 (FitOutcome.raises 0) (ExportOutcome.raises 0) =
      (TrainResult.errDict ("Need at least " ++ toString 10 ++ " OK images (found "
          ++ toString fsW4.okImages.length ++ ")"), fsW4, engineInit) :=
  c4_insufficient_samples_no_action fsW4 engineInit "patchcore" 10
    (FitOutcome.raises 0) (ExportOutcome.raises 0) (by decide)

/-- Claim C3 (amended): on the exit paths the claim enumerates — success,
fit exception, and export failure — no staging workspace remains when a
`train` call on a sufficient corpus and a supported model type concludes.
(As stated over every exit path the claim is false: the `ValueError` exit
for an unknown model type is raised after staging and performs no
cleanup — see the counterexample.) -/
theorem c3_workspace_removed_on_listed_paths (fs : FS) (st : EngineSt) (modelType : String)
    (minCount : Nat) (fit : FitOutcome) (exportRes : ExportOutcome)
    (h1 : isSupportedModelType modelType = true) (h2 : minCount ≤ fs.okImages.length) :
    (train fs st modelType minCount fit exportRes).2.1.trainTemp = false := by
  have h2' : ¬ fs.okImages.length < minCount := Nat.not_lt.mpr h2
  cases fit <;> cases exportRes <;> simp [train, h1, h2', FS.setModelDir]

theorem c3_workspace_removed_on_listed_paths_witness :
    (train fsW3 engineInit "patchcore" 1 (FitOutcome.raises 3)
        (ExportOutcome.raises 0)).2.1.trainTemp = false :=
  c3_workspace_removed_on_listed_paths fsW3 engineInit "patchcore" 1
    (FitOutcome.raises 3) (ExportOutcome.raises 0) (by decide) (by decide)

/-- Claim C3 counterexample: a `train` call with ten OK images but the
unsupported model type `"resnet"` stages the workspace, then concludes by
raising `ValueError` from `_get_model_class`, and the staging workspace
`data/train_temp` is still on disk when the call concludes. -/
theorem c3_unknown_model_keeps_workspace_counterexample :
    (train fsTen engineInit "resnet" 10 (FitOutcome.raises 0) (ExportOutcome.raises 0)).1
        = TrainResult.exn (PyExn.valueError "Unknown model type: resnet") ∧
    (train fsTen engineInit "resnet" 10 (FitOutcome.raises 0)
        (ExportOutcome.raises 0)).2.1.trainTemp = true := by
  decide

/-- Claim C6 (amended): when `engine.fit` raises, `train` removes the
staging workspace and then re-raises the exception unchanged (line
`raise e`), so the failure reaches the caller — the endpoint's background
task or the scheduler, each of which wraps the call in `try/except` and
logs it — as a raw propagated exception, not as a structured
`TrainingFailed` result dictionary; no registry or export write happens
on this path. -/
theorem c6_fit_exception_cleanup_and_raise (fs : FS) (st : EngineSt) (modelType : String)
    (minCount : Nat) (cause : Nat) (exportRes : ExportOutcome)
    (h1 : isSupportedModelType modelType = true) (h2 : minCount ≤ fs.okImages.length) :
    train fs st modelType minCount (FitOutcome.raises cause) exportRes =
      (TrainResult.exn (PyExn.fitError cause), { fs with trainTemp := false },
        { st with model := some (LoadedModel.inMemory modelType false) }) := by
  have h2' : ¬ fs.okImages.length < minCount := Nat.not_lt.mpr h2
  simp [train, h1, h2']

theorem c6_fit_exception_cleanup_and_raise_witness :
    train fsTen engineInit "patchcore" 10 (FitOutcome.raises 7) (ExportOutcome.raises 0) =
      (TrainResult.exn (PyExn.fitError 7), { fsTen with trainTemp := false },
        { engineInit with model := some (LoadedModel.inMemory "patchcore" false) }) :=
  c6_fit_exception_cleanup_and_raise fsTen engineInit "patchcore" 10 7
    (ExportOutcome.raises 0) (by decide) (by decide)

/-- Claim C6 counterexample: on a sufficient corpus with a supported
model type, a fit exception makes `train` conclude by raising — `isExn`
holds of its outcome, which is `exn (fitError 7)`, not any
`{"success": False, ...}` dictionary — while the workspace cleanup does
execute. -/
theorem c6_raw_exception_counterexample :
    ((train fsTen engineInit "patchcore" 10 (FitOutcome.raises 7)
        (ExportOutcome.raises 0)).1).isExn = true ∧
    (train fsTen engineInit "patchcore" 10 (FitOutcome.raises 7)
        (ExportOutcome.raises 0)).1 = TrainResult.exn (PyExn.fitError 7) ∧
    (train fsTen engineInit "patchcore" 10 (FitOutcome.raises 7)
        (ExportOutcome.raises 0)).2.1.trainTemp = false := by
  decide

/-- Claim C5: at load time from a fresh engine state, backend selection
follows exactly the three-step order of `_load_inference_model`: a
structurally complete `models/openvino/` bundle is loaded as the
optimized backend; otherwise, if any checkpoint exists under the model
type's directory, a checkpoint of maximal modification time among them is
loaded as the reference backend; otherwise no backend is loaded and
`predict` fails with the model-not-loaded error. -/
theorem c5_backend_selection_order (fs : FS) (modelType : String)
    (h : isSupportedModelType modelType = true) :
    ((fs.ovXml && fs.ovMeta) = true →
      loadInferenceModel fs modelType engineInit =
        { engineInit with activeModelType := modelType,
                          inferencer := some fs.ovContent, model := none }) ∧
    ((fs.ovXml && fs.ovMeta) = false →
      ∀ c, maxByMtime (fs.modelDir (pyCapitalize modelType)).allCkpts = some c →
        loadInferenceModel fs modelType engineInit =
            { engineInit with activeModelType := modelType,
                              model := some (LoadedModel.fromCheckpoint c),
                              inferencer := none } ∧
          c ∈ (fs.modelDir (pyCapitalize modelType)).allCkpts ∧
          ∀ x ∈ (fs.modelDir (pyCapitalize modelType)).allCkpts, x.mtime ≤ c.mtime) ∧
    ((fs.ovXml && fs.ovMeta) = false →
      (fs.modelDir (pyCapitalize modelType)).allCkpts = [] →
        (loadInferenceModel fs modelType engineInit).model = none ∧
        (loadInferenceModel fs modelType engineInit).inferencer = none ∧
        ∀ ovScore img out,
          predict (loadInferenceModel fs modelType engineInit) ovScore img out =
            PredictResult.err "Model not loaded. Please train first.") := by
  refine ⟨?_, ?_, ?_⟩
  · intro hov
    simp [loadInferenceModel, hov]
  · intro hov c hmax
    refine ⟨?_, maxByMtime_mem _ c hmax, maxByMtime_isMax _ c hmax⟩
    simp [loadInferenceModel, hov, hmax, h]
  · intro hov hck
    have hnone : maxByMtime (fs.modelDir (pyCapitalize modelType)).allCkpts = none := by
      rw [hck]; rfl
    refine ⟨?_, ?_, ?_⟩ <;> simp [loadInferenceModel, hov, hnone, engineInit, predict]

theorem c5_backend_selection_order_witness :
    loadInferenceModel fsW5 "patchcore" engineInit =
      { engineInit with activeModelType := "patchcore",
                        inferencer := some fsW5.ovContent, model := none } :=
  (c5_backend_selection_order fsW5 "patchcore" (by decide)).1 (by decide)

/-- Claim C10: the optimized-export location is the single shared path
`models/openvino/` — in the model a single `ovXml`/`ovMeta`/`ovContent`
slot of `FS`, mirroring `OPENVINO_DIR = MODEL_DIR / "openvino"` — so
whenever its `model.xml` and `metadata.json` both exist, loading the
inference backend installs that one shared artifact as the inferencer for
every requested model type, with the reference model cleared, and the
installed backend does not depend on the model type requested. -/
theorem c10_shared_openvino_backend (fs : FS) (modelType modelType' : String)
    (st st' : EngineSt) (h1 : fs.ovXml = true) (h2 : fs.ovMeta = true) :
    (loadInferenceModel fs modelType st).inferencer = some fs.ovContent ∧
    (loadInferenceModel fs modelType st).model = none ∧
    (loadInferenceModel fs modelType st).inferencer =
      (loadInferenceModel fs modelType' st').inferencer := by
  refine ⟨?_, ?_, ?_⟩ <;> simp [loadInferenceModel, h1, h2]

theorem c10_shared_openvino_backend_witness :
    (loadInferenceModel fsW5 "padim" engineInit).inferencer = some fsW5.ovContent ∧
    (loadInferenceModel fsW5 "padim" engineInit).model = none ∧
    (loadInferenceModel fsW5 "padim" engineInit).inferencer =
      (loadInferenceModel fsW5 "efficientad" engineInit).inferencer :=
  c10_shared_openvino_backend fsW5 "padim" "efficientad" engineInit engineInit
    (by decide) (by decide)

theorem roundHalfEven_intCast (n : ℤ) : roundHalfEven (n : ℚ) = n := by
  unfold roundHalfEven
  rw [Int.floor_intCast]
  simp

theorem round4_zero : round4 0 = 0 := by
  unfold round4
  rw [show ((0 : ℚ) * 10000) = ((0 : ℤ) : ℚ) by norm_num, roundHalfEven_intCast]
  norm_num

theorem round4_three_quarters : round4 (3/4) = 3/4 := by
  unfold round4
  rw [show ((3/4 : ℚ) * 10000) = ((7500 : ℤ) : ℚ) by norm_num, roundHalfEven_intCast]
  norm_num

/-- Claim C2 evaluated at its failing input: on `fsC2` — versions `v1`
(checkpoint mtime 100) and `v2` (mtime 200), no optimized export —
`rollback_to_version("v1")` reports success, but because `copytree`
copies with preserved mtimes and the reload then picks the most recently
modified checkpoint anywhere under `models/Patchcore/`, the engine loads
version `v2`'s checkpoint (mtime 200, contents 2), not `v1`'s
(`[⟨100, 1⟩]`), and the next `predict` call resolves through that `v2`
reference backend. -/
theorem c2_rollback_serves_newest_checkpoint :
    (rollbackToVersion fsC2 engineInit "v1" "patchcore").1
        = RbResult.ok "Rolled back to v1" "v1" ∧
    (rollbackToVersion fsC2 engineInit "v1" "patchcore").2.2.model
        = some (LoadedModel.fromCheckpoint ⟨200, 2⟩) ∧
    (mdC2.cableEntries.find? (fun e => e.name == "v1")).map DirEntry.ckpts
        = some [⟨100, 1⟩] ∧
    predict (rollbackToVersion fsC2 engineInit "v1" "patchcore").2.2 0 (some 1)
        (ModelOutput.withPredScore (3/4) none)
        = PredictResult.ok ⟨3/4, "ng", "pytorch", none⟩ := by
  refine ⟨by decide, by decide, by decide, ?_⟩
  have hst : (rollbackToVersion fsC2 engineInit "v1" "patchcore").2.2 =
      { model := some (LoadedModel.fromCheckpoint ⟨200, 2⟩), inferencer := none,
        activeModelType := "patchcore" } := by decide
  rw [hst]
  simp only [predict, predictPytorch, extractScore, extractAnomalyMap, round4_three_quarters]
  norm_num

/-- Claim C7 evaluated at its failing inputs: with the reference backend
active, a model output that is an empty tuple, a non-sequence object, or
a sequence whose first element is not a tensor — none interpretable —
makes `_predict_pytorch` return the guessed result
`{"score": 0.0, "label": "ok", "method": "pytorch"}` built from the
`score = 0.0` initialization, rather than failing with `InferenceError`. -/
theorem c7_uninterpretable_output_guessed_ok :
    predictPytorch (some 0) (ModelOutput.seq [])
        = PredictResult.ok ⟨0, "ok", "pytorch", none⟩ ∧
    predictPytorch (some 0) (ModelOutput.other 5)
        = PredictResult.ok ⟨0, "ok", "pytorch", none⟩ ∧
    predictPytorch (some 0) (ModelOutput.seq [SeqElem.nonTensor 3])
        = PredictResult.ok ⟨0, "ok", "pytorch", none⟩ := by
  refine ⟨?_, ?_, ?_⟩ <;>
    · simp only [predictPytorch, extractScore, extractAnomalyMap, round4_zero]
      norm_num

/-- Claim C8: `rollback_to_version` on a version whose directory entry is
missing, or present but containing no checkpoint, returns a
`{"success": False, "error": ...}` result (the `VersionNotFound` failure)
and leaves the disk — in particular the `latest` alias — and the engine
state completely unchanged. -/
theorem c8_rollback_version_not_found (fs : FS) (st : EngineSt) (version modelType : String)
    (h : findVersionEntry fs modelType version = none ∨
        ∃ e, findVersionEntry fs modelType version = some e ∧ e.ckpts = []) :
    ∃ msg, rollbackToVersion fs st version modelType = (RbResult.err msg, fs, st) := by
  rcases h with h | ⟨e, he, hck⟩
  · exact ⟨"Version " ++ version ++ " not found", by simp [rollbackToVersion, h]⟩
  · exact ⟨"No checkpoint found in " ++ version, by simp [rollbackToVersion, he, hck]⟩

theorem c8_rollback_version_not_found_witness :
    ∃ msg, rollbackToVersion fsW8 engineInit "v3" "patchcore"
        = (RbResult.err msg, fsW8, engineInit) :=
  c8_rollback_version_not_found fsW8 engineInit "v3" "patchcore"
    (Or.inr ⟨⟨"v3", true, []⟩, by decide, rfl⟩)

theorem mem_numsOf (md : ModelDir) (n : Nat) : n ∈ numsOf md ↔ IsVerNum md n := by
  simp only [numsOf, IsVerNum, List.mem_map, List.mem_filter, Bool.and_eq_true]
  constructor
  · rintro ⟨s, ⟨⟨e, ⟨hmem, hdir, hv⟩, rfl⟩, hdig⟩, hparse⟩
    exact ⟨e, hmem, hdir, hv, hdig, hparse⟩
  · rintro ⟨e, hmem, hdir, hv, hdig, hparse⟩
    exact ⟨pyDrop1 e.name, ⟨⟨e, ⟨hmem, hdir, hv⟩, rfl⟩, hdig⟩, hparse⟩

theorem numsOf_nil_of_no_versions (md : ModelDir)
    (h : ((scannedEntries md).filter (fun d => d.isDir && pyStartsWith d.name "v")).isEmpty
        = true) :
    numsOf md = [] := by
  unfold numsOf
  rw [List.isEmpty_iff] at h
  rw [h]
  rfl

/-- Claim C9: `_get_current_version` returns the sentinel `v0` when the
model directory does not exist or when no scanned entry is a well-formed
version directory (malformed entries are simply ignored — the function is
total), and otherwise returns `v<m>` where `m` is the maximum of the
numbers parsed from the well-formed `v<digits>` directory entries. -/
theorem c9_current_version_max (md : ModelDir) :
    (md.present = false → getCurrentVersion md = "v0") ∧
    (md.present = true → (∀ n, ¬ IsVerNum md n) → getCurrentVersion md = "v0") ∧
    (md.present = true → ∀ k, IsVerNum md k →
      ∃ m, IsVerNum md m ∧ (∀ n, IsVerNum md n → n ≤ m) ∧
        getCurrentVersion md = "v" ++ toString m) := by
  refine ⟨?_, ?_, ?_⟩
  · intro h
    simp [getCurrentVersion, h]
  · intro hp hnone
    have hnil : numsOf md = [] := by
      cases hcase : numsOf md with
      | nil => rfl
      | cons a as =>
          exact absurd ((mem_numsOf md a).mp (hcase ▸ List.mem_cons_self a as)) (hnone a)
    unfold getCurrentVersion
    rw [hp, hnil]
    simp
  · intro hp k hk
    have hkm : k ∈ numsOf md := (mem_numsOf md k).mpr hk
    cases hn : numsOf md with
    | nil =>
        rw [hn] at hkm
        simp at hkm
    | cons a as =>
        refine ⟨as.foldl max a, ?_, ?_, ?_⟩
        · exact (mem_numsOf md _).mp (hn ▸ foldlNatMax_mem as a)
        · intro n hn2
          have hmem : n ∈ numsOf md := (mem_numsOf md n).mpr hn2
          rw [hn] at hmem
          rcases List.mem_cons.mp hmem with rfl | hmem
          · exact (foldlNatMax_le as n).1
          · exact (foldlNatMax_le as a).2 n hmem
        · have hne :
              ((scannedEntries md).filter
                  (fun d => d.isDir && pyStartsWith d.name "v")).isEmpty = false := by
            cases hcase :
                ((scannedEntries md).filter
                    (fun d => d.isDir && pyStartsWith d.name "v")).isEmpty with
            | false => rfl
            | true =>
                rw [numsOf_nil_of_no_versions md hcase] at hn
                exact absurd hn (by simp)
          unfold getCurrentVersion
          rw [hp, hn, hne]
          simp

theorem c9_current_version_max_witness :
    ∃ m, IsVerNum mdW9 m ∧ (∀ n, IsVerNum mdW9 n → n ≤ m) ∧
      getCurrentVersion mdW9 = "v" ++ toString m :=
  (c9_current_version_max mdW9).2.2 (by decide) 2 (by decide)
